import Mathlib

/-!
Verification of the Relax VM Python wrapper (`python/tvm/relax/vm.py`).

The wrapper exposes `Executable` (save/load/stats/astext/aspython),
`load_exec_from_file`, and `VirtualMachine`, whose `_setup_device`
method normalizes the caller's device specification, auto-appends a CPU
device when none is present, resolves the allocator configuration, and
builds the flat argument list handed to `VirtualMachineInit`.

We embed `_setup_device` shallowly: Python dynamic typing of the `dev`
and `memory_cfg` arguments becomes the inductive types `DevSpec` and
`MemoryCfg`; the Python exceptions become constructors of `SetupError`;
the flat `init_args` list (which in Python mixes ints and, for dict
overrides, arbitrary values such as strings) becomes `List PyVal`.
-/

namespace RelaxVM

/-- A `tvm.runtime.Device`: its `device_type` and `device_id` fields.
TVM's `Device.__eq__`/`__hash__` compare exactly these two fields, which
justifies structural equality for dict keys. -/
structure Device where
  device_type : Nat
  device_id : Nat
deriving DecidableEq, Repr

/-- `RPC_SESS_MASK`, imported by the wrapper from `tvm.rpc.base`:
a remote-session device is encoded as `session * 128 + base_type`. -/
def RPC_SESS_MASK : Nat := 128

/-- `tvm.cpu()`: the host CPU device, `kDLCPU = 1`, device id 0. -/
def tvm_cpu : Device := ⟨1, 0⟩

/-- `VirtualMachine.NAIVE_ALLOCATOR`. -/
def NAIVE_ALLOCATOR : Nat := 1

/-- `VirtualMachine.POOLED_ALLOCATOR`. -/
def POOLED_ALLOCATOR : Nat := 2

/-- A Python value appearing in the `init_args` list: the wrapper appends
ints (`device_type % RPC_SESS_MASK`, `device_id`, a default allocator
constant) but a `memory_cfg` dict entry is forwarded unconverted, so a
string (or any other value) can also appear. -/
inductive PyVal where
  | int (n : Nat)
  | str (s : String)
deriving DecidableEq, Repr

/-- The dynamic type of the `dev` argument of `_setup_device`:
a single `tvm.runtime.Device`, a Python list of devices, a Python tuple
of devices, or a value of any other type. -/
inductive DevSpec where
  | dev (d : Device)
  | list (ds : List Device)
  | tuple (ds : List Device)
  | otherTy
deriving DecidableEq, Repr

/-- The dynamic type of the `memory_cfg` argument: `None`, a string, a
dict from `Device` to values (modelled as an association list, first
match wins, as for a Python dict with unique keys), or any other type. -/
inductive MemoryCfg where
  | noneCfg
  | strCfg (s : String)
  | dictCfg (m : List (Device × PyVal))
  | otherCfg
deriving DecidableEq, Repr

/-- The exceptions `_setup_device` can raise:
* `typeErrorDev` — `TypeError("dev is expected to be Device or List[Device]")`;
* `attributeError` — `devs.append(tvm.cpu())` on a tuple (tuples have no
  `append`), raised by the CPU auto-append;
* `assertionError` — `assert memory_cfg in ["naive", "pooled"]` fails;
  this is the failure the spec's taxonomy names `InvalidAllocatorStrategy`;
* `typeErrorCfg` — `TypeError("memory_cfg is expected be string or dictionary ...")`;
  the spec's taxonomy names it `InvalidConfiguration`. -/
inductive SetupError where
  | typeErrorDev
  | attributeError
  | assertionError
  | typeErrorCfg
deriving DecidableEq, Repr

/-- `device_type % RPC_SESS_MASK`: strip the remote-session encoding. -/
def normType (d : Device) : Nat := d.device_type % RPC_SESS_MASK

/-- The per-device test of the auto-append scan:
`c.device_type % RPC_SESS_MASK == tvm.cpu().device_type`. -/
def isCpuNorm (d : Device) : Bool := normType d == tvm_cpu.device_type

/-- Python dict membership/indexing on the `memory_cfg` dict
(`device in memory_cfg` / `memory_cfg[device]`). -/
def lookupCfg : List (Device × PyVal) → Device → Option PyVal
  | [], _ => none
  | (k, v) :: rest, d => if k = d then some v else lookupCfg rest d

/-- `alloc_type = memory_cfg[device] if device in memory_cfg else default_alloc_type`. -/
def allocFor (cfg : List (Device × PyVal)) (dflt : Nat) (d : Device) : PyVal :=
  match lookupCfg cfg d with
  | some v => v
  | none => PyVal.int dflt

/-- The `for device in devs` loop: per device it appends
`device.device_type % RPC_SESS_MASK`, `device.device_id`, `alloc_type`. -/
def buildInitArgs (cfg : List (Device × PyVal)) (dflt : Nat) : List Device → List PyVal
  | [] => []
  | d :: rest =>
      PyVal.int (normType d) :: PyVal.int d.device_id :: allocFor cfg dflt d ::
        buildInitArgs cfg dflt rest

/-- `devs = dev`, plus the two `isinstance` checks: a list or tuple is
used as is, a single `Device` is wrapped as `[dev]`, anything else
raises `TypeError`. -/
def initialDevs : DevSpec → Except SetupError (List Device)
  | DevSpec.dev d => Except.ok [d]
  | DevSpec.list ds => Except.ok ds
  | DevSpec.tuple ds => Except.ok ds
  | DevSpec.otherTy => Except.error SetupError.typeErrorDev

/-- The CPU auto-append:
`if not any(c.device_type % RPC_SESS_MASK == tvm.cpu().device_type for c in devs):
devs.append(tvm.cpu())`. On a tuple, `.append` does not exist and Python
raises `AttributeError`; on a list the append mutates the caller's
object in place. -/
def appendCpu (dev : DevSpec) (devs0 : List Device) : Except SetupError (List Device) :=
  if devs0.any isCpuNorm then Except.ok devs0
  else
    match dev with
    | DevSpec.tuple _ => Except.error SetupError.attributeError
    | _ => Except.ok (devs0 ++ [tvm_cpu])

/-- Resolution of `memory_cfg` into the override dict and
`default_alloc_type`: `None` becomes `({}, POOLED)`; `"naive"`/`"pooled"`
become `({}, NAIVE)`/`({}, POOLED)` and any other string fails the
`assert`; a dict is kept with the `POOLED` default; anything else raises
`TypeError`. -/
def resolveAlloc : MemoryCfg → Except SetupError (List (Device × PyVal) × Nat)
  | MemoryCfg.noneCfg => Except.ok ([], POOLED_ALLOCATOR)
  | MemoryCfg.strCfg s =>
      if s = "naive" then Except.ok ([], NAIVE_ALLOCATOR)
      else if s = "pooled" then Except.ok ([], POOLED_ALLOCATOR)
      else Except.error SetupError.assertionError
  | MemoryCfg.dictCfg m => Except.ok (m, POOLED_ALLOCATOR)
  | MemoryCfg.otherCfg => Except.error SetupError.typeErrorCfg

/-- The observable outcome of a successful `_setup_device` call:
* `devs` — the final local `devs` list;
* `callerList` — the contents of the caller's own list object after the
  call, when `dev` was a list (`devs = dev` aliases it, so the in-place
  `append` is visible to the caller); `none` otherwise;
* `init_args` — the flat argument list passed to
  `_ffi_api.VirtualMachineInit` (the device-binding call). -/
structure SetupOutput where
  devs : List Device
  callerList : Option (List Device)
  init_args : List PyVal
deriving DecidableEq, Repr

/-- `VirtualMachine._setup_device(dev, memory_cfg)`, in the statement
order of the Python body: the `isinstance` checks on `dev`, then the CPU
auto-append, then the `memory_cfg` resolution, then the loop building
`init_args`. An `Except.error` result means the corresponding Python
exception propagates out of the constructor and
`_ffi_api.VirtualMachineInit` is never reached, so no device binding
occurs. -/
def setup_device (dev : DevSpec) (memory_cfg : MemoryCfg) :
    Except SetupError SetupOutput :=
  match initialDevs dev with
  | Except.error e => Except.error e
  | Except.ok devs0 =>
    match appendCpu dev devs0 with
    | Except.error e => Except.error e
    | Except.ok devs =>
      match resolveAlloc memory_cfg with
      | Except.error e => Except.error e
      | Except.ok (cfg, dflt) =>
        Except.ok
          { devs := devs
            callerList := match dev with | DevSpec.list _ => some devs | _ => none
            init_args := buildInitArgs cfg dflt devs }

/-! ### Helper lemmas -/

lemma buildInitArgs_length (cfg : List (Device × PyVal)) (dflt : Nat)
    (ds : List Device) : (buildInitArgs cfg dflt ds).length = 3 * ds.length := by
  induction ds with
  | nil => rfl
  | cons d rest ih => simp [buildInitArgs, ih]; ring

lemma buildInitArgs_get? (cfg : List (Device × PyVal)) (dflt : Nat)
    (ds : List Device) (i : Nat) :
    (buildInitArgs cfg dflt ds).get? (3 * i) =
        (ds.get? i).map (fun d => PyVal.int (normType d)) ∧
    (buildInitArgs cfg dflt ds).get? (3 * i + 1) =
        (ds.get? i).map (fun d => PyVal.int d.device_id) ∧
    (buildInitArgs cfg dflt ds).get? (3 * i + 2) =
        (ds.get? i).map (allocFor cfg dflt) := by
  induction ds generalizing i with
  | nil => simp [buildInitArgs]
  | cons d rest ih =>
    cases i with
    | zero => simp [buildInitArgs]
    | succ n =>
      obtain ⟨ih1, ih2, ih3⟩ := ih n
      refine ⟨?_, ?_, ?_⟩
      · have e : 3 * (n + 1) = 3 * n + 1 + 1 + 1 := by ring
        rw [e]
        simpa [buildInitArgs, List.get?_cons_succ] using ih1
      · have e : 3 * (n + 1) + 1 = 3 * n + 1 + 1 + 1 + 1 := by ring
        rw [e]
        simpa [buildInitArgs, List.get?_cons_succ] using ih2
      · have e : 3 * (n + 1) + 2 = 3 * n + 2 + 1 + 1 + 1 := by ring
        rw [e]
        simpa [buildInitArgs, List.get?_cons_succ] using ih3

/-- Inversion of a successful `setup_device` call. -/
lemma setup_device_ok (dev : DevSpec) (mc : MemoryCfg) (o : SetupOutput)
    (h : setup_device dev mc = Except.ok o) :
    ∃ devs0 cfg dflt,
      initialDevs dev = Except.ok devs0 ∧
      appendCpu dev devs0 = Except.ok o.devs ∧
      resolveAlloc mc = Except.ok (cfg, dflt) ∧
      o.callerList = (match dev with | DevSpec.list _ => some o.devs | _ => none) ∧
      o.init_args = buildInitArgs cfg dflt o.devs := by
  cases h1 : initialDevs dev with
  | error e => simp [setup_device, h1] at h
  | ok devs0 =>
    cases h2 : appendCpu dev devs0 with
    | error e => simp [setup_device, h1, h2] at h
    | ok devs =>
      cases h3 : resolveAlloc mc with
      | error e => simp [setup_device, h1, h2, h3] at h
      | ok p =>
        obtain ⟨cfg, dflt⟩ := p
        simp only [setup_device, h1, h2, h3, Except.ok.injEq] at h
        subst h
        exact ⟨devs0, cfg, dflt, rfl, h2, rfl, by cases dev <;> rfl, rfl⟩

/-- A successful `appendCpu` yields either the original devices (some
device already normalizes to the CPU type) or the originals followed by
exactly one appended `tvm.cpu()`. -/
lemma appendCpu_ok (dev : DevSpec) (devs0 devs : List Device)
    (h : appendCpu dev devs0 = Except.ok devs) :
    (devs0.any isCpuNorm = true ∧ devs = devs0) ∨
    (devs0.any isCpuNorm = false ∧ devs = devs0 ++ [tvm_cpu]) := by
  by_cases hc : devs0.any isCpuNorm
  · left
    refine ⟨hc, ?_⟩
    simp [appendCpu, hc] at h
    exact h.symm
  · right
    simp only [Bool.not_eq_true] at hc
    refine ⟨hc, ?_⟩
    cases dev <;> simp [appendCpu, hc] at h <;> exact h.symm

/-- On a Python list the CPU auto-append never raises. -/
lemma appendCpu_list_ok (ds devs0 : List Device) :
    ∃ devs, appendCpu (DevSpec.list ds) devs0 = Except.ok devs := by
  by_cases hc : devs0.any isCpuNorm
  · exact ⟨devs0, by simp [appendCpu, hc]⟩
  · exact ⟨devs0 ++ [tvm_cpu], by simp [appendCpu, hc]⟩

/-- On a single-`Device` spec the CPU auto-append never raises. -/
lemma appendCpu_dev_ok (d : Device) (devs0 : List Device) :
    ∃ devs, appendCpu (DevSpec.dev d) devs0 = Except.ok devs := by
  by_cases hc : devs0.any isCpuNorm
  · exact ⟨devs0, by simp [appendCpu, hc]⟩
  · exact ⟨devs0 ++ [tvm_cpu], by simp [appendCpu, hc]⟩

/-- A string other than `"naive"`/`"pooled"` fails the `assert`. -/
lemma resolveAlloc_bad_str (s : String) (h1 : s ≠ "naive") (h2 : s ≠ "pooled") :
    resolveAlloc (MemoryCfg.strCfg s) = Except.error SetupError.assertionError := by
  simp [resolveAlloc, h1, h2]

/-- The allocator argument recorded at flat position `3*i + 2` is
`allocFor cfg dflt` of the `i`-th device, where `(cfg, dflt)` is the
resolution of the memory configuration. -/
lemma setup_alloc_arg (dev : DevSpec) (mc : MemoryCfg) (o : SetupOutput)
    (cfg : List (Device × PyVal)) (dflt : Nat) (i : Nat) (d : Device)
    (hmc : resolveAlloc mc = Except.ok (cfg, dflt))
    (h : setup_device dev mc = Except.ok o) (hd : o.devs.get? i = some d) :
    o.init_args.get? (3 * i + 2) = some (allocFor cfg dflt d) := by
  obtain ⟨devs0, cfg', dflt', -, -, h3, -, hargs⟩ := setup_device_ok dev mc o h
  rw [hmc] at h3
  injection h3 with h3
  obtain ⟨rfl, rfl⟩ : cfg = cfg' ∧ dflt = dflt' :=
    ⟨congrArg Prod.fst h3, congrArg Prod.snd h3⟩
  rw [hargs, (buildInitArgs_get? cfg dflt o.devs i).2.2, hd]
  rfl

/-! ### Binary codec (modelled from the spec)

`Executable.save_to_file` and `load_exec_from_file` in the wrapper are
opaque FFI calls (`_ffi_api.ExecutableSaveToFile` /
`ExecutableLoadFromFile`); the codec and the executable's
instruction/constant/function-table representation live in the native
library, outside `src/`. The following definitions model them from the
spec: an executable holds ordered instructions (opcode plus operands),
ordered constants, and a function table mapping a name to (entry offset,
register-frame size, parameter count); the byte stream is a versioned
header (version, instruction count, constant count, function count)
followed by instruction records, constant records, and function table
records. -/

/-- Modelled from the spec: an opcoded instruction record — "opcode,
register operands, immediate operands" — with its operand list. -/
structure Instruction where
  opcode : Nat
  operands : List Nat
deriving DecidableEq, Repr

/-- Modelled from the spec: a function table record — function name with
"(entry instruction offset, register-frame size, parameter count)". -/
structure FuncEntry where
  name : String
  entry : Nat
  frameSize : Nat
  numParams : Nat
deriving DecidableEq, Repr

/-- Modelled from the spec: the `Executable` payload — "instructions +
constants + function table" (constants modelled as scalar words). -/
structure Executable where
  instructions : List Instruction
  constants : List Nat
  functions : List FuncEntry
deriving DecidableEq, Repr

/-- Modelled from the spec: the header's encoding-version field. -/
def CODEC_VERSION : Nat := 1

/-- A length-prefixed sequence of words. -/
def encodeSeq (l : List Nat) : List Nat := l.length :: l

/-- An instruction record: opcode, then the length-prefixed operands. -/
def encodeInstr (ins : Instruction) : List Nat := ins.opcode :: encodeSeq ins.operands

/-- A string as a length-prefixed sequence of character codes. -/
def encodeString (s : String) : List Nat := encodeSeq (s.data.map Char.toNat)

/-- A function table record: name, entry offset, frame size, parameter count. -/
def encodeFunc (f : FuncEntry) : List Nat :=
  encodeString f.name ++ [f.entry, f.frameSize, f.numParams]

/-- Modelled from the spec: `encode(Executable) -> bytes` — the
versioned header (version, instruction count, constant count, function
count) followed by instruction records, constant records, and function
table records. -/
def encode (e : Executable) : List Nat :=
  CODEC_VERSION :: e.instructions.length :: e.constants.length :: e.functions.length ::
    ((e.instructions.map encodeInstr).flatten ++ e.constants ++
      (e.functions.map encodeFunc).flatten)

/-- Read one word; fails on exhausted input. -/
def readNat : List Nat → Option (Nat × List Nat)
  | [] => none
  | n :: rest => some (n, rest)

/-- Read exactly `n` words. -/
def readNats : Nat → List Nat → Option (List Nat × List Nat)
  | 0, input => some ([], input)
  | n + 1, input => do
      let (x, rest) ← readNat input
      let (xs, rest') ← readNats n rest
      some (x :: xs, rest')

/-- Read a length-prefixed sequence of words. -/
def readSeq (input : List Nat) : Option (List Nat × List Nat) := do
  let (n, rest) ← readNat input
  readNats n rest

/-- Read one instruction record. -/
def readInstr (input : List Nat) : Option (Instruction × List Nat) := do
  let (op, rest) ← readNat input
  let (ops, rest') ← readSeq rest
  some (⟨op, ops⟩, rest')

/-- Read a length-prefixed string. -/
def readString (input : List Nat) : Option (String × List Nat) := do
  let (codes, rest) ← readSeq input
  some (String.mk (codes.map Char.ofNat), rest)

/-- Read one function table record. -/
def readFunc (input : List Nat) : Option (FuncEntry × List Nat) := do
  let (nm, r1) ← readString input
  let (en, r2) ← readNat r1
  let (fs, r3) ← readNat r2
  let (np, r4) ← readNat r3
  some (⟨nm, en, fs, np⟩, r4)

/-- Read exactly `n` records with the given record reader. -/
def readMany {α : Type} (rd : List Nat → Option (α × List Nat)) :
    Nat → List Nat → Option (List α × List Nat)
  | 0, input => some ([], input)
  | n + 1, input => do
      let (x, rest) ← rd input
      let (xs, rest') ← readMany rd n rest
      some (x :: xs, rest')

/-- Modelled from the spec: `decode(bytes) -> Executable` — checks the
header version (an unknown version is a load failure, not corruption),
reads the three counts, then the records; trailing garbage is rejected. -/
def decode (input : List Nat) : Option Executable := do
  let (v, r0) ← readNat input
  if v = CODEC_VERSION then
    let (ni, r1) ← readNat r0
    let (nc, r2) ← readNat r1
    let (nf, r3) ← readNat r2
    let (instrs, r4) ← readMany readInstr ni r3
    let (consts, r5) ← readNats nc r4
    let (funcs, r6) ← readMany readFunc nf r5
    if r6 = [] then some ⟨instrs, consts, funcs⟩ else none
  else none

/-- `Executable.save_to_file`, modelled from the spec: "serialize and
write the executable to a file" — the file's contents are `encode e`
(file I/O mechanics are out of the spec's scope). -/
def save_to_file (e : Executable) : List Nat := encode e

/-- `load_exec_from_file`, modelled from the spec: decode a file's
contents back into an executable. -/
def load_exec_from_file (contents : List Nat) : Option Executable :=
  decode contents

lemma readNats_append (l rest : List Nat) :
    readNats l.length (l ++ rest) = some (l, rest) := by
  induction l with
  | nil => rfl
  | cons x xs ih => simp [readNats, readNat, ih]

lemma readSeq_append (l rest : List Nat) :
    readSeq (encodeSeq l ++ rest) = some (l, rest) := by
  simp [readSeq, encodeSeq, readNat, readNats_append]

lemma readInstr_append (ins : Instruction) (rest : List Nat) :
    readInstr (encodeInstr ins ++ rest) = some (ins, rest) := by
  simp [readInstr, encodeInstr, readNat, readSeq_append]

lemma readString_append (s : String) (rest : List Nat) :
    readString (encodeString s ++ rest) = some (s, rest) := by
  simp [readString, encodeString, readSeq_append, List.map_map]
  have hcomp : Char.ofNat ∘ Char.toNat = (fun c : Char => c) := by
    funext c
    exact Char.ofNat_toNat c
  rw [hcomp, List.map_id']

lemma readFunc_append (f : FuncEntry) (rest : List Nat) :
    readFunc (encodeFunc f ++ rest) = some (f, rest) := by
  obtain ⟨nm, en, fs, np⟩ := f
  simp [readFunc, encodeFunc, List.append_assoc, readString_append, readNat]

lemma readMany_append {α : Type} (rd : List Nat → Option (α × List Nat))
    (enc : α → List Nat) (henc : ∀ x rest, rd (enc x ++ rest) = some (x, rest))
    (l : List α) (rest : List Nat) :
    readMany rd l.length ((l.map enc).flatten ++ rest) = some (l, rest) := by
  induction l with
  | nil => rfl
  | cons x xs ih => simp [readMany, List.append_assoc, henc, ih]

/-- C7: Codec round-trip: for every executable `e`, decoding the
encoding of `e` (equivalently, loading a file previously saved via
`save_to_file`) yields an executable with identical instructions,
constants, and function table. -/
theorem C7_codec_round_trip (e : Executable) :
    decode (encode e) = some e ∧
    load_exec_from_file (save_to_file e) = some e := by
  have main : decode (encode e) = some e := by
    obtain ⟨instrs, consts, funcs⟩ := e
    have h1 := readMany_append readInstr encodeInstr readInstr_append instrs
      (consts ++ (funcs.map encodeFunc).flatten)
    have h2 := readNats_append consts (funcs.map encodeFunc).flatten
    have h3 := readMany_append readFunc encodeFunc readFunc_append funcs []
    rw [List.append_nil] at h3
    simp [decode, encode, readNat, List.append_assoc, h1, h2, h3]
  exact ⟨main, main⟩

/-! ### Claims on `_setup_device` -/

/-- C1: Allocator strategy resolution during VM construction: if
`memory_cfg` is absent (`None`), every device's binding uses the pooled
allocator; if it is the string `"naive"` or `"pooled"`, every device
(including any auto-appended CPU device) uses that strategy; if it is a
mapping, each device uses the mapped strategy when the device is a key
of the mapping and the pooled default otherwise. -/
theorem C1_allocator_strategy_resolution (dev : DevSpec) (o : SetupOutput)
    (i : Nat) (d : Device) :
    (setup_device dev MemoryCfg.noneCfg = Except.ok o → o.devs.get? i = some d →
      o.init_args.get? (3 * i + 2) = some (PyVal.int POOLED_ALLOCATOR)) ∧
    (setup_device dev (MemoryCfg.strCfg "naive") = Except.ok o → o.devs.get? i = some d →
      o.init_args.get? (3 * i + 2) = some (PyVal.int NAIVE_ALLOCATOR)) ∧
    (setup_device dev (MemoryCfg.strCfg "pooled") = Except.ok o → o.devs.get? i = some d →
      o.init_args.get? (3 * i + 2) = some (PyVal.int POOLED_ALLOCATOR)) ∧
    (∀ m, setup_device dev (MemoryCfg.dictCfg m) = Except.ok o → o.devs.get? i = some d →
      (∀ v, lookupCfg m d = some v → o.init_args.get? (3 * i + 2) = some v) ∧
      (lookupCfg m d = none →
        o.init_args.get? (3 * i + 2) = some (PyVal.int POOLED_ALLOCATOR))) := by
  refine ⟨?_, ?_, ?_, ?_⟩
  · intro h hd
    simpa [allocFor, lookupCfg] using
      setup_alloc_arg dev MemoryCfg.noneCfg o [] POOLED_ALLOCATOR i d rfl h hd
  · intro h hd
    simpa [allocFor, lookupCfg] using
      setup_alloc_arg dev (MemoryCfg.strCfg "naive") o [] NAIVE_ALLOCATOR i d
        (by simp [resolveAlloc]) h hd
  · intro h hd
    simpa [allocFor, lookupCfg] using
      setup_alloc_arg dev (MemoryCfg.strCfg "pooled") o [] POOLED_ALLOCATOR i d
        (by simp [resolveAlloc]) h hd
  · intro m h hd
    have base := setup_alloc_arg dev (MemoryCfg.dictCfg m) o m POOLED_ALLOCATOR i d rfl h hd
    constructor
    · intro v hv
      rw [base]
      simp [allocFor, hv]
    · intro hv
      rw [base]
      simp [allocFor, hv]

theorem C1_allocator_strategy_resolution_witness :
    setup_device (DevSpec.list [⟨2, 0⟩]) MemoryCfg.noneCfg = Except.ok
      ⟨[⟨2, 0⟩, tvm_cpu], some [⟨2, 0⟩, tvm_cpu],
        [PyVal.int 2, PyVal.int 0, PyVal.int 2, PyVal.int 1, PyVal.int 0, PyVal.int 2]⟩ ∧
    ([PyVal.int 2, PyVal.int 0, PyVal.int 2, PyVal.int 1, PyVal.int 0,
        PyVal.int 2] : List PyVal).get? 2 = some (PyVal.int POOLED_ALLOCATOR) :=
  ⟨rfl,
    (C1_allocator_strategy_resolution (DevSpec.list [⟨2, 0⟩])
      ⟨[⟨2, 0⟩, tvm_cpu], some [⟨2, 0⟩, tvm_cpu],
        [PyVal.int 2, PyVal.int 0, PyVal.int 2, PyVal.int 1, PyVal.int 0, PyVal.int 2]⟩
      0 ⟨2, 0⟩).1 rfl rfl⟩

/-- C2: CPU auto-append: for every caller-supplied device sequence, if no
device's session-normalized device type equals the host CPU device type,
then setup appends exactly one CPU device binding after the caller's
devices; if some device normalizes to the CPU type, no device is
appended. -/
theorem C2_cpu_auto_append (ds : List Device) (mc : MemoryCfg) (o : SetupOutput)
    (h : setup_device (DevSpec.list ds) mc = Except.ok o) :
    (ds.any isCpuNorm = false → o.devs = ds ++ [tvm_cpu]) ∧
    (ds.any isCpuNorm = true → o.devs = ds) := by
  obtain ⟨devs0, cfg, dflt, h1, h2, -, -, -⟩ := setup_device_ok _ _ _ h
  have hds : devs0 = ds := by
    simp [initialDevs] at h1
    exact h1.symm
  subst hds
  rcases appendCpu_ok _ _ _ h2 with ⟨hc, hdevs⟩ | ⟨hc, hdevs⟩
  · exact ⟨fun hf => absurd hc (by simp [hf]), fun _ => hdevs⟩
  · exact ⟨fun _ => hdevs, fun ht => absurd ht (by simp [hc])⟩

theorem C2_cpu_auto_append_witness :
    setup_device (DevSpec.list [⟨2, 0⟩]) MemoryCfg.noneCfg = Except.ok
      ⟨[⟨2, 0⟩, tvm_cpu], some [⟨2, 0⟩, tvm_cpu],
        [PyVal.int 2, PyVal.int 0, PyVal.int 2, PyVal.int 1, PyVal.int 0, PyVal.int 2]⟩ ∧
    ([⟨2, 0⟩] : List Device).any isCpuNorm = false ∧
    (⟨[⟨2, 0⟩, tvm_cpu], some [⟨2, 0⟩, tvm_cpu],
        [PyVal.int 2, PyVal.int 0, PyVal.int 2, PyVal.int 1, PyVal.int 0,
          PyVal.int 2]⟩ : SetupOutput).devs = [⟨2, 0⟩] ++ [tvm_cpu] :=
  ⟨rfl, rfl,
    (C2_cpu_auto_append [⟨2, 0⟩] MemoryCfg.noneCfg
      ⟨[⟨2, 0⟩, tvm_cpu], some [⟨2, 0⟩, tvm_cpu],
        [PyVal.int 2, PyVal.int 0, PyVal.int 2, PyVal.int 1, PyVal.int 0, PyVal.int 2]⟩
      rfl).1 rfl⟩

/-- C3: Device-type normalization: every device type recorded in a
binding is reduced modulo the session mask
(`device_type % RPC_SESS_MASK`) before being passed to VM
initialization, and the "is this the CPU" check used for auto-append
compares this normalized type, so a remote-session device whose base
type is CPU counts as a CPU device and suppresses the auto-append. -/
theorem C3_device_type_normalization (dev : DevSpec) (mc : MemoryCfg)
    (o : SetupOutput) (i : Nat) (d : Device) :
    (setup_device dev mc = Except.ok o → o.devs.get? i = some d →
      o.init_args.get? (3 * i) = some (PyVal.int (d.device_type % RPC_SESS_MASK))) ∧
    (∀ c : Device, c.device_type % RPC_SESS_MASK = tvm_cpu.device_type →
      ∀ o' : SetupOutput, setup_device (DevSpec.list [c]) mc = Except.ok o' →
        o'.devs = [c]) := by
  constructor
  · intro h hd
    obtain ⟨devs0, cfg, dflt, -, -, -, -, hargs⟩ := setup_device_ok _ _ _ h
    rw [hargs, (buildInitArgs_get? cfg dflt o.devs i).1, hd]
    rfl
  · intro c hcpu o' h'
    obtain ⟨devs0, cfg, dflt, h1, h2, -, -, -⟩ := setup_device_ok _ _ _ h'
    have hds : devs0 = [c] := by
      simp [initialDevs] at h1
      exact h1.symm
    subst hds
    rcases appendCpu_ok _ _ _ h2 with ⟨-, hdevs⟩ | ⟨hc, -⟩
    · exact hdevs
    · exfalso
      have : isCpuNorm c = true := by simp [isCpuNorm, normType, hcpu]
      simp [this] at hc

theorem C3_device_type_normalization_witness :
    setup_device (DevSpec.list [⟨129, 0⟩]) MemoryCfg.noneCfg = Except.ok
      ⟨[⟨129, 0⟩], some [⟨129, 0⟩], [PyVal.int 1, PyVal.int 0, PyVal.int 2]⟩ ∧
    (129 : Nat) % RPC_SESS_MASK = tvm_cpu.device_type ∧
    (⟨[⟨129, 0⟩], some [⟨129, 0⟩],
        [PyVal.int 1, PyVal.int 0, PyVal.int 2]⟩ : SetupOutput).devs = [⟨129, 0⟩] :=
  ⟨rfl, rfl,
    (C3_device_type_normalization (DevSpec.list [⟨129, 0⟩]) MemoryCfg.noneCfg
      ⟨[⟨129, 0⟩], some [⟨129, 0⟩], [PyVal.int 1, PyVal.int 0, PyVal.int 2]⟩ 0
      ⟨129, 0⟩).2 ⟨129, 0⟩ rfl
      ⟨[⟨129, 0⟩], some [⟨129, 0⟩], [PyVal.int 1, PyVal.int 0, PyVal.int 2]⟩ rfl⟩

/-- C4: Positional slot assignment: bindings are recorded in exactly the
caller-supplied device order (followed by the auto-appended CPU, if any),
with the `i`-th device of that sequence occupying the `i`-th binding
triple (positions `3*i .. 3*i+2`) of the flat `init_args` list, i.e.
virtual slot `i`. -/
theorem C4_positional_slot_assignment (dev : DevSpec) (mc : MemoryCfg)
    (o : SetupOutput) (h : setup_device dev mc = Except.ok o) :
    o.init_args.length = 3 * o.devs.length ∧
    (∀ i d, o.devs.get? i = some d →
      o.init_args.get? (3 * i) = some (PyVal.int (normType d)) ∧
      o.init_args.get? (3 * i + 1) = some (PyVal.int d.device_id) ∧
      ∃ v, o.init_args.get? (3 * i + 2) = some v) ∧
    (∀ ds, dev = DevSpec.list ds → o.devs = ds ∨ o.devs = ds ++ [tvm_cpu]) := by
  obtain ⟨devs0, cfg, dflt, h1, h2, -, -, hargs⟩ := setup_device_ok _ _ _ h
  refine ⟨?_, ?_, ?_⟩
  · rw [hargs]
    exact buildInitArgs_length cfg dflt o.devs
  · intro i d hd
    obtain ⟨g1, g2, g3⟩ := buildInitArgs_get? cfg dflt o.devs i
    refine ⟨?_, ?_, allocFor cfg dflt d, ?_⟩
    · rw [hargs, g1, hd]; rfl
    · rw [hargs, g2, hd]; rfl
    · rw [hargs, g3, hd]; rfl
  · intro ds hdev
    subst hdev
    have hds : devs0 = ds := by
      simp [initialDevs] at h1
      exact h1.symm
    subst hds
    rcases appendCpu_ok _ _ _ h2 with ⟨-, hdevs⟩ | ⟨-, hdevs⟩
    · exact Or.inl hdevs
    · exact Or.inr hdevs

theorem C4_positional_slot_assignment_witness :
    setup_device (DevSpec.list [⟨2, 0⟩, ⟨8, 1⟩]) MemoryCfg.noneCfg = Except.ok
      ⟨[⟨2, 0⟩, ⟨8, 1⟩, tvm_cpu], some [⟨2, 0⟩, ⟨8, 1⟩, tvm_cpu],
        [PyVal.int 2, PyVal.int 0, PyVal.int 2, PyVal.int 8, PyVal.int 1,
          PyVal.int 2, PyVal.int 1, PyVal.int 0, PyVal.int 2]⟩ ∧
    (⟨[⟨2, 0⟩, ⟨8, 1⟩, tvm_cpu], some [⟨2, 0⟩, ⟨8, 1⟩, tvm_cpu],
        [PyVal.int 2, PyVal.int 0, PyVal.int 2, PyVal.int 8, PyVal.int 1,
          PyVal.int 2, PyVal.int 1, PyVal.int 0,
          PyVal.int 2]⟩ : SetupOutput).init_args.length =
      3 * (⟨[⟨2, 0⟩, ⟨8, 1⟩, tvm_cpu], some [⟨2, 0⟩, ⟨8, 1⟩, tvm_cpu],
        [PyVal.int 2, PyVal.int 0, PyVal.int 2, PyVal.int 8, PyVal.int 1,
          PyVal.int 2, PyVal.int 1, PyVal.int 0,
          PyVal.int 2]⟩ : SetupOutput).devs.length :=
  ⟨rfl,
    (C4_positional_slot_assignment (DevSpec.list [⟨2, 0⟩, ⟨8, 1⟩]) MemoryCfg.noneCfg
      ⟨[⟨2, 0⟩, ⟨8, 1⟩, tvm_cpu], some [⟨2, 0⟩, ⟨8, 1⟩, tvm_cpu],
        [PyVal.int 2, PyVal.int 0, PyVal.int 2, PyVal.int 8, PyVal.int 1,
          PyVal.int 2, PyVal.int 1, PyVal.int 0, PyVal.int 2]⟩ rfl).1⟩

/-- C5: If `memory_cfg` is a string outside `{"naive", "pooled"}`, setup
fails the `assert` (the failure the spec calls `InvalidAllocatorStrategy`)
and the result is an error, so `_ffi_api.VirtualMachineInit` — the device
binding — is never reached. This holds for a list device spec, a single
device, and a tuple that contains a CPU-class device. -/
theorem C5_invalid_global_strategy (ds : List Device) (d : Device) (s : String)
    (h1 : s ≠ "naive") (h2 : s ≠ "pooled") :
    setup_device (DevSpec.list ds) (MemoryCfg.strCfg s) =
      Except.error SetupError.assertionError ∧
    setup_device (DevSpec.dev d) (MemoryCfg.strCfg s) =
      Except.error SetupError.assertionError ∧
    (ds.any isCpuNorm = true → setup_device (DevSpec.tuple ds) (MemoryCfg.strCfg s) =
      Except.error SetupError.assertionError) := by
  refine ⟨?_, ?_, ?_⟩
  · obtain ⟨devs, hdevs⟩ := appendCpu_list_ok ds ds
    simp [setup_device, initialDevs, hdevs, resolveAlloc_bad_str s h1 h2]
  · obtain ⟨devs, hdevs⟩ := appendCpu_dev_ok d [d]
    simp [setup_device, initialDevs, hdevs, resolveAlloc_bad_str s h1 h2]
  · intro hc
    have hdevs : appendCpu (DevSpec.tuple ds) ds = Except.ok ds := by
      simp [appendCpu, hc]
    simp [setup_device, initialDevs, hdevs, resolveAlloc_bad_str s h1 h2]

theorem C5_invalid_global_strategy_witness :
    ("bogus" : String) ≠ "naive" ∧ ("bogus" : String) ≠ "pooled" ∧
    setup_device (DevSpec.list [⟨2, 0⟩]) (MemoryCfg.strCfg "bogus") =
      Except.error SetupError.assertionError :=
  ⟨by decide, by decide,
    (C5_invalid_global_strategy [⟨2, 0⟩] tvm_cpu "bogus" (by decide) (by decide)).1⟩

/-- C6: Setup-time type validation fails fast: a device spec that is
neither a single device nor a list/tuple of devices raises the
`TypeError` the spec calls `InvalidDeviceHandle`, and a `memory_cfg` that
is neither absent, a string, nor a mapping raises the `TypeError` the
spec calls `InvalidConfiguration`; in both cases the result is an error,
so `_ffi_api.VirtualMachineInit` is never reached and no binding occurs. -/
theorem C6_setup_type_validation (mc : MemoryCfg) (ds : List Device) (d : Device) :
    setup_device DevSpec.otherTy mc = Except.error SetupError.typeErrorDev ∧
    setup_device (DevSpec.list ds) MemoryCfg.otherCfg =
      Except.error SetupError.typeErrorCfg ∧
    setup_device (DevSpec.dev d) MemoryCfg.otherCfg =
      Except.error SetupError.typeErrorCfg := by
  refine ⟨?_, ?_, ?_⟩
  · simp [setup_device, initialDevs]
  · obtain ⟨devs, hdevs⟩ := appendCpu_list_ok ds ds
    simp [setup_device, initialDevs, hdevs, resolveAlloc]
  · obtain ⟨devs, hdevs⟩ := appendCpu_dev_ok d [d]
    simp [setup_device, initialDevs, hdevs, resolveAlloc]

/-- C8: When the caller passes a device list containing no CPU-class
device, setup mutates the caller's own list object in place by appending
the CPU device (`devs = dev` aliases the argument, and `devs.append`
mutates it): the caller's list afterwards is exactly the final `devs`
list, i.e. the original devices followed by `tvm.cpu()`. When the list
already holds a CPU-class device, the caller's list is left unchanged;
a single-device argument is never mutated (it is wrapped in a fresh
list). -/
theorem C8_caller_list_aliased (ds : List Device) (mc : MemoryCfg) (o : SetupOutput)
    (h : setup_device (DevSpec.list ds) mc = Except.ok o) :
    o.callerList = some o.devs ∧
    (ds.any isCpuNorm = false → o.devs = ds ++ [tvm_cpu]) ∧
    (ds.any isCpuNorm = true → o.devs = ds) ∧
    (∀ d o', setup_device (DevSpec.dev d) mc = Except.ok o' → o'.callerList = none) := by
  obtain ⟨devs0, cfg, dflt, h1, h2, -, hcaller, -⟩ := setup_device_ok _ _ _ h
  have hds : devs0 = ds := by
    simp [initialDevs] at h1
    exact h1.symm
  subst hds
  refine ⟨hcaller, ?_, ?_, ?_⟩
  · intro hf
    rcases appendCpu_ok _ _ _ h2 with ⟨hc, -⟩ | ⟨-, hdevs⟩
    · rw [hf] at hc
      exact absurd hc (by simp)
    · exact hdevs
  · intro ht
    rcases appendCpu_ok _ _ _ h2 with ⟨-, hdevs⟩ | ⟨hc, -⟩
    · exact hdevs
    · rw [ht] at hc
      exact absurd hc (by simp)
  · intro d o' h'
    obtain ⟨devs0', cfg', dflt', -, -, -, hcaller', -⟩ := setup_device_ok _ _ _ h'
    exact hcaller'

theorem C8_caller_list_aliased_witness :
    setup_device (DevSpec.list [⟨2, 0⟩]) MemoryCfg.noneCfg = Except.ok
      ⟨[⟨2, 0⟩, tvm_cpu], some [⟨2, 0⟩, tvm_cpu],
        [PyVal.int 2, PyVal.int 0, PyVal.int 2, PyVal.int 1, PyVal.int 0, PyVal.int 2]⟩ ∧
    (⟨[⟨2, 0⟩, tvm_cpu], some [⟨2, 0⟩, tvm_cpu],
        [PyVal.int 2, PyVal.int 0, PyVal.int 2, PyVal.int 1, PyVal.int 0,
          PyVal.int 2]⟩ : SetupOutput).callerList =
      some (⟨[⟨2, 0⟩, tvm_cpu], some [⟨2, 0⟩, tvm_cpu],
        [PyVal.int 2, PyVal.int 0, PyVal.int 2, PyVal.int 1, PyVal.int 0,
          PyVal.int 2]⟩ : SetupOutput).devs :=
  ⟨rfl,
    (C8_caller_list_aliased [⟨2, 0⟩] MemoryCfg.noneCfg
      ⟨[⟨2, 0⟩, tvm_cpu], some [⟨2, 0⟩, tvm_cpu],
        [PyVal.int 2, PyVal.int 0, PyVal.int 2, PyVal.int 1, PyVal.int 0, PyVal.int 2]⟩
      rfl).1⟩

/-- C9: When the device spec is a tuple (accepted by the
`isinstance(dev, (list, tuple))` check) containing no CPU-class device,
setup fails with the `AttributeError` raised by `devs.append(tvm.cpu())`
on the immutable tuple — for every memory configuration, even an invalid
one (the append precedes the configuration checks) — rather than
completing the auto-append or raising a configuration error. -/
theorem C9_tuple_append_attribute_error (ds : List Device) (mc : MemoryCfg)
    (h : ds.any isCpuNorm = false) :
    setup_device (DevSpec.tuple ds) mc = Except.error SetupError.attributeError := by
  have hap : appendCpu (DevSpec.tuple ds) ds = Except.error SetupError.attributeError := by
    simp [appendCpu, h]
  simp [setup_device, initialDevs, hap]

theorem C9_tuple_append_attribute_error_witness :
    ([⟨2, 0⟩] : List Device).any isCpuNorm = false ∧
    setup_device (DevSpec.tuple [⟨2, 0⟩]) MemoryCfg.otherCfg =
      Except.error SetupError.attributeError :=
  ⟨rfl, C9_tuple_append_attribute_error [⟨2, 0⟩] MemoryCfg.otherCfg rfl⟩

/-- C10: Per-device allocator strategy values supplied in a `memory_cfg`
dict are not validated by the setup: whatever value the dict holds for a
device — of any shape, e.g. an arbitrary string or an out-of-range
integer — is recorded unchanged in the `init_args` passed to
`_ffi_api.VirtualMachineInit`; only the global-string form of
`memory_cfg` is checked against `{"naive", "pooled"}`. -/
theorem C10_dict_values_unvalidated (m : List (Device × PyVal)) (dev : DevSpec)
    (o : SetupOutput) (i : Nat) (d : Device) (v : PyVal)
    (h : setup_device dev (MemoryCfg.dictCfg m) = Except.ok o)
    (hd : o.devs.get? i = some d) (hv : lookupCfg m d = some v) :
    o.init_args.get? (3 * i + 2) = some v := by
  have base := setup_alloc_arg dev (MemoryCfg.dictCfg m) o m POOLED_ALLOCATOR i d rfl h hd
  rw [base]
  simp [allocFor, hv]

theorem C10_dict_values_unvalidated_witness :
    setup_device (DevSpec.list [⟨2, 0⟩])
        (MemoryCfg.dictCfg [(⟨2, 0⟩, PyVal.str "garbage")]) = Except.ok
      ⟨[⟨2, 0⟩, tvm_cpu], some [⟨2, 0⟩, tvm_cpu],
        [PyVal.int 2, PyVal.int 0, PyVal.str "garbage", PyVal.int 1, PyVal.int 0,
          PyVal.int 2]⟩ ∧
    ([PyVal.int 2, PyVal.int 0, PyVal.str "garbage", PyVal.int 1, PyVal.int 0,
        PyVal.int 2] : List PyVal).get? 2 = some (PyVal.str "garbage") :=
  ⟨rfl,
    C10_dict_values_unvalidated [(⟨2, 0⟩, PyVal.str "garbage")]
      (DevSpec.list [⟨2, 0⟩])
      ⟨[⟨2, 0⟩, tvm_cpu], some [⟨2, 0⟩, tvm_cpu],
        [PyVal.int 2, PyVal.int 0, PyVal.str "garbage", PyVal.int 1, PyVal.int 0,
          PyVal.int 2]⟩
      0 ⟨2, 0⟩ (PyVal.str "garbage") rfl rfl rfl⟩

end RelaxVM
